import Mathlib

/-!
Verification development for the nRF24L01 transceiver driver
(source file nRF24L01.py, class RadioDriver).

The driver is shallowly embedded: every modelled Python method becomes a
Lean function over an explicit chip / driver state.  Register bytes are
modelled as unbounded signed integers, exactly like Python ints, and the
Python bitwise operators are modelled by pyAnd / pyOr / pyNot / pyShl
below with two's-complement semantics.  SPI mechanics are abstracted to
a register file: read_register returns the stored register value,
write_register updates it (and counts the write); the status-read
shortcut (NOP command 0xFF) returns the STATUS register value.  The
asynchronous transfer loops (master_exchange, master_send) poll status
repeatedly while the hardware changes the flags underneath, so they are
modelled against an environment supplying the byte returned by each
successive status read, with a fuel argument bounding the number of
observed iterations (the Python loops have no bound; a run that
exhausts its fuel is reported as none).
-/

namespace NRF

/-- Python bitwise NOT on unbounded signed integers: ~a = -a - 1. -/
def pyNot (a : Int) : Int := -a - 1

/-- Python bitwise AND on unbounded signed integers (two's complement).
For a negative operand b, the bits of b are the complement of the bits
of -b - 1, so a AND b strips from a exactly the bits shared with
-b - 1. -/
def pyAnd (a b : Int) : Int :=
  if 0 ≤ a then
    if 0 ≤ b then ((a.toNat &&& b.toNat : Nat) : Int)
    else ((a.toNat - (a.toNat &&& (-b - 1).toNat) : Nat) : Int)
  else
    if 0 ≤ b then ((b.toNat - (b.toNat &&& (-a - 1).toNat) : Nat) : Int)
    else -((((-a - 1).toNat ||| (-b - 1).toNat : Nat) : Int)) - 1

/-- Python bitwise OR on unbounded signed integers (two's complement). -/
def pyOr (a b : Int) : Int :=
  if 0 ≤ a then
    if 0 ≤ b then ((a.toNat ||| b.toNat : Nat) : Int)
    else -((((-b - 1).toNat - ((-b - 1).toNat &&& a.toNat) : Nat) : Int)) - 1
  else
    if 0 ≤ b then -((((-a - 1).toNat - ((-a - 1).toNat &&& b.toNat) : Nat) : Int)) - 1
    else -((((-a - 1).toNat &&& (-b - 1).toNat : Nat) : Int)) - 1

/-- Python 1 << b (the bit-mask expression used throughout the driver). -/
def pyShl1 (b : Nat) : Int := ((1 <<< b : Nat) : Int)

/-- Python a << n for an integer a (multiplication by 2 ^ n). -/
def pyShlI (a : Int) (n : Nat) : Int := a * ((2 ^ n : Nat) : Int)

/-- Python a >> n (floor division by 2 ^ n, also for negative a). -/
def pyShr (a : Int) (n : Nat) : Int := Int.ediv a ((2 ^ n : Nat) : Int)

/-- Python int(x / 250) for the retry-delay conversion in
_shockburst_config: true division truncated toward zero (exact for the
integer magnitudes a configuration can hold). -/
def retry_delay_steps (delay_us : Int) : Int := Int.tdiv delay_us 250

-- Register addresses (RadioDriver class constants).
def CONFIG_REG : Nat := 0x00
def EN_AA_REG : Nat := 0x01
def EN_RXADDR_REG : Nat := 0x02
def SETUP_AW_REG : Nat := 0x03
def SETUP_RETR_REG : Nat := 0x04
def RF_CH_REG : Nat := 0x05
def RF_SETUP_REG : Nat := 0x06
def STATUS_REG : Nat := 0x07
def OBSERVE_TX_REG : Nat := 0x08
def TX_ADDR_REG : Nat := 0x10
def RX_PW_P0_REG : Nat := 0x11
def RX_ADDR_REG : Nat := 0x0A
def DYNPD_REG : Nat := 0x1C
def FEATURE_REG : Nat := 0x1D
def FIFO_STATUS_REG : Nat := 0x17

-- RadioDriver.ResponseStatus result codes.
def SEND_FAIL : Nat := 0
def MSG_RECV : Nat := 1
def MSG_SENT_NO_RESP : Nat := 2
def MSG_PENDING : Nat := 3
def MSG_SENT : Nat := 4
def TIMED_OUT : Nat := 5
def FIFO_FULL : Nat := 6

/-- Python exceptions raised by the driver: AssertionError from a failed
assert statement, OSError from the device-not-responsive checks. -/
inductive PyErr where
  | assertionError : PyErr
  | osError : PyErr
deriving DecidableEq

/-- Chip state as the driver observes it over SPI: the register file
(single-byte registers as Int, multi-byte address registers as byte
lists), plus counters for issued register writes and FIFO flush
commands, used to state write-count and flush facts. -/
structure Chip where
  regs : Nat → Int
  bufs : Nat → List Int
  wcount : Nat
  txFlushes : Nat
  rxFlushes : Nat

/-- read_register: returns the addressed register byte. -/
def read_register (c : Chip) (reg : Nat) : Int := c.regs reg

/-- write_register with an int value: stores the byte, counts the write. -/
def write_register_int (c : Chip) (reg : Nat) (v : Int) : Chip :=
  { c with regs := fun x => if x = reg then v else c.regs x, wcount := c.wcount + 1 }

/-- write_register with a buffer value: stores the byte list, counts the
write. -/
def write_register_buf (c : Chip) (reg : Nat) (v : List Int) : Chip :=
  { c with bufs := fun x => if x = reg then v else c.bufs x, wcount := c.wcount + 1 }

/-- read_status_register: the NOP command 0xFF returns the STATUS
register content as the command reply. -/
def read_status_register (c : Chip) : Int := c.regs STATUS_REG

/-- flush_tx_fifo (command 0xE1). -/
def flush_tx_fifo (c : Chip) : Chip := { c with txFlushes := c.txFlushes + 1 }

/-- flush_rx_fifo (command 0xE2). -/
def flush_rx_fifo (c : Chip) : Chip := { c with rxFlushes := c.rxFlushes + 1 }

/-- toggle_register_bit: read the register, compute the prior bit state,
write back with the bit set or cleared only when a change is requested,
and return the prior bit state. -/
def toggle_register_bit (c : Chip) (reg bit_no : Nat) (set_high : Bool) : Bool × Chip :=
  let cur := read_register c reg
  let is_high : Bool := pyAnd cur (pyShl1 bit_no) != 0
  if !is_high && set_high then
    (is_high, write_register_int c reg (pyOr cur (pyShl1 bit_no)))
  else if is_high && !set_high then
    (is_high, write_register_int c reg (pyAnd cur (pyNot (pyShl1 bit_no))))
  else (is_high, c)

/-- tx_fifo_full_flag: TX_FULL flag, bit 0 of the STATUS register. -/
def tx_fifo_full_flag (c : Chip) : Bool := pyAnd (read_status_register c) 1 != 0

/-- tx_fifo_empty: TX_EMPTY flag, bit 4 (0x10) of FIFO_STATUS. -/
def tx_fifo_empty (c : Chip) : Bool := pyAnd (read_register c FIFO_STATUS_REG) 0x10 != 0

/-- get_clear_rx_irq: RX_DR flag, bit 6 (0x40) of STATUS; when set and
clear is requested, write back with that bit set (the chip clears
status bits by writing 1). -/
def get_clear_rx_irq (c : Chip) (clear : Bool) : Bool × Chip :=
  let cur := read_status_register c
  let is_set : Bool := pyAnd cur 0x40 != 0
  if clear && is_set then (is_set, write_register_int c STATUS_REG (pyOr cur 0x40))
  else (is_set, c)

/-- get_clear_tx_irq: TX_DS flag, bit 5 (0x20) of STATUS. -/
def get_clear_tx_irq (c : Chip) (clear : Bool) : Bool × Chip :=
  let cur := read_status_register c
  let is_set : Bool := pyAnd cur 0x20 != 0
  if clear && is_set then (is_set, write_register_int c STATUS_REG (pyOr cur 0x20))
  else (is_set, c)

/-- get_clear_max_rt_irq: MAX_RT flag, bit 4 (0x10) of STATUS. -/
def get_clear_max_rt_irq (c : Chip) (clear : Bool) : Bool × Chip :=
  let cur := read_status_register c
  let is_set : Bool := pyAnd cur 0x10 != 0
  if clear && is_set then (is_set, write_register_int c STATUS_REG (pyOr cur 0x10))
  else (is_set, c)

/-- toggle_power_up: CONFIG register bit 1. -/
def toggle_power_up (c : Chip) (enable : Bool) : Bool × Chip :=
  toggle_register_bit c CONFIG_REG 1 enable

/-- toggle_primary_rx: CONFIG register bit 0. -/
def toggle_primary_rx (c : Chip) (enable : Bool) : Bool × Chip :=
  toggle_register_bit c CONFIG_REG 0 enable

/-- clear_status_flags: write STATUS with the RX_DR, TX_DS and MAX_RT
bits set on top of the current status byte. -/
def clear_status_flags (c : Chip) : Chip :=
  write_register_int c STATUS_REG
    (pyOr (pyOr (pyOr (read_status_register c) 0x10) 0x20) 0x40)

/-- check_device_responsive: toggle the power-up bit off then on and
report whether the two observed prior states differ. -/
def check_device_responsive (c : Chip) : Bool × Chip :=
  let r1 := toggle_power_up c false
  let r2 := toggle_power_up r1.2 true
  (r1.1 != r2.1, r2.2)

/-- set_data_rate: assert 0 <= rate <= 2, clear both data-rate bits
(mask ~0x28) and set bit 3 for 2 Mbps or bit 5 for 250 kbps. -/
def set_data_rate (c : Chip) (rate : Int) : Except PyErr Chip :=
  if 0 ≤ rate ∧ rate ≤ 2 then
    let cur := pyAnd (read_register c RF_SETUP_REG) (pyNot 0x28)
    let cur := if rate = 1 then pyOr cur (pyShl1 3)
      else if rate = 2 then pyOr cur (pyShl1 5) else cur
    .ok (write_register_int c RF_SETUP_REG cur)
  else .error .assertionError

/-- set_rf_power: assert 0 <= power <= 3, write RF_SETUP with the two
power bits (mask ~0x06) replaced by power << 1. -/
def set_rf_power (c : Chip) (power : Int) : Except PyErr Chip :=
  if 0 ≤ power ∧ power ≤ 3 then
    .ok (write_register_int c RF_SETUP_REG
      (pyOr (pyAnd (read_register c RF_SETUP_REG) (pyNot 0x06)) (pyShlI power 1)))
  else .error .assertionError

/-- en_crc: CONFIG register bit 3. -/
def en_crc (c : Chip) (enable : Bool) : Bool × Chip :=
  toggle_register_bit c CONFIG_REG 3 enable

/-- set_crc_scheme: CONFIG register bit 2, set high when the Python
length argument is truthy. -/
def set_crc_scheme (c : Chip) (length : Int) : Bool × Chip :=
  toggle_register_bit c CONFIG_REG 2 (length != 0)

/-- set_auto_retry_delay: assert 0 <= delay_lv <= 15, return the prior
delay field and write SETUP_RETR with bits 4-7 replaced by
delay_lv << 4. -/
def set_auto_retry_delay (c : Chip) (delay_lv : Int) : Except PyErr (Int × Chip) :=
  if 0 ≤ delay_lv ∧ delay_lv ≤ 15 then
    let reg_val := read_register c SETUP_RETR_REG
    let cur := pyShr (pyAnd reg_val 0xf0) 4
    .ok (cur, write_register_int c SETUP_RETR_REG
      (pyOr (pyAnd reg_val (pyNot 0xf0)) (pyShlI delay_lv 4)))
  else .error .assertionError

/-- set_auto_retry_count: assert 0 <= retries <= 15, then write
SETUP_RETR masked against the current lower nibble OR-ed with the new
count: (reg_val and not (reg_val and 0x0f)) or retries. -/
def set_auto_retry_count (c : Chip) (retries : Int) : Except PyErr Chip :=
  if 0 ≤ retries ∧ retries ≤ 15 then
    let reg_val := read_register c SETUP_RETR_REG
    let cur := pyShr (pyAnd reg_val 0x0f) 0
    .ok (write_register_int c SETUP_RETR_REG (pyOr (pyAnd reg_val (pyNot cur)) retries))
  else .error .assertionError

/-- set_channel: assert 0 <= channel <= 125, write RF_CH. -/
def set_channel (c : Chip) (channel : Int) : Except PyErr Chip :=
  if 0 ≤ channel ∧ channel ≤ 125 then
    .ok (write_register_int c RF_CH_REG channel)
  else .error .assertionError

/-- set_address_width: assert 3 <= length <= 5, write SETUP_AW with
length - 2. -/
def set_address_width (c : Chip) (length : Nat) : Except PyErr Chip :=
  if 3 ≤ length ∧ length ≤ 5 then
    .ok (write_register_int c SETUP_AW_REG ((length : Int) - 2))
  else .error .assertionError

/-- toggle_enable_rx_pipe: assert 0 <= pipe_no <= 5, toggle the pipe bit
in EN_RXADDR. -/
def toggle_enable_rx_pipe (c : Chip) (pipe_no : Nat) (enable : Bool) :
    Except PyErr (Bool × Chip) :=
  if pipe_no ≤ 5 then .ok (toggle_register_bit c EN_RXADDR_REG pipe_no enable)
  else .error .assertionError

/-- set_rx_pipe_address: assert 0 <= pipe_no <= 5; pipes 2-5 store only
the first address byte, pipes 0-1 the full buffer, at RX_ADDR + pipe. -/
def set_rx_pipe_address (c : Chip) (pipe_no : Nat) (address : List Int) :
    Except PyErr Chip :=
  if pipe_no ≤ 5 then
    if 2 ≤ pipe_no then .ok (write_register_int c (RX_ADDR_REG + pipe_no) address.headI)
    else .ok (write_register_buf c (RX_ADDR_REG + pipe_no) address)
  else .error .assertionError

/-- set_tx_pipe_address: assert len(address) == 5, write the TX_ADDR
buffer. -/
def set_tx_pipe_address (c : Chip) (address : List Int) : Except PyErr Chip :=
  if address.length = 5 then .ok (write_register_buf c TX_ADDR_REG address)
  else .error .assertionError

/-- toggle_auto_ack_for_pipe: assert 0 <= pipe_no <= 5, toggle the pipe
bit in EN_AA. -/
def toggle_auto_ack_for_pipe (c : Chip) (pipe_no : Nat) (enable : Bool) :
    Except PyErr (Bool × Chip) :=
  if pipe_no ≤ 5 then .ok (toggle_register_bit c EN_AA_REG pipe_no enable)
  else .error .assertionError

/-- enable_dynamic_pyload_length_for_pipe: assert 0 <= pipe_no <= 5,
toggle the pipe bit in DYNPD. -/
def enable_dynamic_pyload_length_for_pipe (c : Chip) (pipe_no : Nat) (enable : Bool) :
    Except PyErr (Bool × Chip) :=
  if pipe_no ≤ 5 then .ok (toggle_register_bit c DYNPD_REG pipe_no enable)
  else .error .assertionError

/-- toggle_dynamic_payload_length_enabled: FEATURE register bit 2. -/
def toggle_dynamic_payload_length_enabled (c : Chip) (enable : Bool) : Bool × Chip :=
  toggle_register_bit c FEATURE_REG 2 enable

/-- set_rx_payload_length: assert 0 <= pipe_no <= 5 and
1 <= payload_length <= 32, write RX_PW_P0 + pipe_no. -/
def set_rx_payload_length (c : Chip) (pipe_no : Nat) (payload_length : Int) :
    Except PyErr Chip :=
  if pipe_no ≤ 5 then
    if 1 ≤ payload_length ∧ payload_length ≤ 32 then
      .ok (write_register_int c (RX_PW_P0_REG + pipe_no) payload_length)
    else .error .assertionError
  else .error .assertionError

/-- enable_payloads_with_ack: FEATURE register bit 1. -/
def enable_payloads_with_ack (c : Chip) (enable : Bool) : Bool × Chip :=
  toggle_register_bit c FEATURE_REG 1 enable

/-- NRF240LConfig: the configuration record, without the SPI pin
bindings, which the register protocol never inspects. -/
structure NRF240LConfig where
  TX_PIPE : List Int
  RX_PIPE : List Int
  CHANNEL : Int
  EN_DYNAMIC_PL : Bool
  DEFAULT_PL_SZ : Int
  NUM_RETRIES : Int
  RETRY_DELAY_US : Int
  DATA_RATE : Int
  RF_POWER : Int

/-- _shockburst_config: the shared configuration sequence, in source
order: clear status flags, flush both FIFOs, program power, data rate,
CRC (enabled, 2-byte scheme), auto-retry delay (RETRY_DELAY_US
converted with int(delay / 250)) and count, channel, address width from
len(TX_PIPE), enable RX pipe 0, program its address, auto-ack on pipe
0, ACK payloads, then dynamic payload length or the static payload
size. -/
def shockburst_config (cfg : NRF240LConfig) (c : Chip) : Except PyErr Chip := do
  let c := clear_status_flags c
  let c := flush_tx_fifo c
  let c := flush_rx_fifo c
  let c ← set_rf_power c cfg.RF_POWER
  let c ← set_data_rate c cfg.DATA_RATE
  let c := (en_crc c true).2
  let c := (set_crc_scheme c 1).2
  let rd ← set_auto_retry_delay c (retry_delay_steps cfg.RETRY_DELAY_US)
  let c := rd.2
  let c ← set_auto_retry_count c cfg.NUM_RETRIES
  let c ← set_channel c cfg.CHANNEL
  let c ← set_address_width c cfg.TX_PIPE.length
  let rp ← toggle_enable_rx_pipe c 0 true
  let c := rp.2
  let c ← set_rx_pipe_address c 0 cfg.RX_PIPE
  let ra ← toggle_auto_ack_for_pipe c 0 true
  let c := ra.2
  let c := (enable_payloads_with_ack c true).2
  if cfg.EN_DYNAMIC_PL then
    let rdp ← enable_dynamic_pyload_length_for_pipe c 0 true
    let c := (toggle_dynamic_payload_length_enabled rdp.2 true).2
    return c
  else
    let c ← set_rx_payload_length c 0 cfg.DEFAULT_PL_SZ
    return c

/-- Driver state: the chip as seen over the bus, the power flag _on and
the last-payload-size tracker. -/
structure Driver where
  chip : Chip
  is_on : Bool
  last_pl_sz : Nat

/-- configure_tx: fail closed (value False) when powered down; otherwise
force standby, run the shockburst configuration, clear the primary-RX
role bit, program the TX address (asserting its length is 5), and
re-assert power-up; the Python method then falls off the end (None). -/
def configure_tx (cfg : NRF240LConfig) (st : Driver) :
    Except PyErr (Option Bool × Driver) :=
  if !st.is_on then .ok (some false, st)
  else do
    let c := (toggle_power_up st.chip false).2
    let c ← shockburst_config cfg c
    let c := (toggle_primary_rx c false).2
    let c ← set_tx_pipe_address c cfg.TX_PIPE
    let c := (toggle_power_up c true).2
    return (none, { st with chip := c })

/-- power_on: no-op (None) when already on; otherwise probe
responsiveness (the probe itself mutates the chip), and on failure
leave the driver marked off returning False, else set the power-up bit,
reset the payload-size tracker, mark on and return True.  Bus/pin
setup and the fixed settle delays have no register-level effect and are
not modelled. -/
def power_on (st : Driver) : Option Bool × Driver :=
  if st.is_on then (none, st)
  else
    let pr := check_device_responsive st.chip
    if !pr.1 then (some false, { st with chip := pr.2, is_on := false })
    else
      let pu := toggle_power_up pr.2 true
      (some true, { st with chip := pu.2, is_on := true, last_pl_sz := 0 })

/-- check_master_msg_sent: MAX_RT (not cleared) dominates, then TX_DS
(cleared when observed), then a non-empty TX FIFO means pending, else
SEND_FAIL. -/
def check_master_msg_sent (c : Chip) : Nat × Chip :=
  let mx := get_clear_max_rt_irq c false
  if mx.1 then (SEND_FAIL, mx.2)
  else
    let tx := get_clear_tx_irq mx.2 true
    if tx.1 then (MSG_SENT, tx.2)
    else if !(tx_fifo_empty tx.2) then (MSG_PENDING, tx.2)
    else (SEND_FAIL, tx.2)

/-- check_slave_msg_sent: TX_DS (cleared when observed) or an empty TX
FIFO means sent, else pending; the FIFO is only read when the flag was
not set (Python or short-circuits). -/
def check_slave_msg_sent (c : Chip) : Nat × Chip :=
  let tx := get_clear_tx_irq c true
  if tx.1 then (MSG_SENT, tx.2)
  else if tx_fifo_empty tx.2 then (MSG_SENT, tx.2)
  else (MSG_PENDING, tx.2)

/-- check_msg_sent: dispatch on the driver role. -/
def check_msg_sent (is_master : Bool) (c : Chip) : Nat × Chip :=
  if is_master then check_master_msg_sent c else check_slave_msg_sent c

/-- read_rx_payload: the scratch byte is preset to 0xFF before the
R_RX_PAYLOAD transaction; scratch is the byte the bus left there
afterwards (still 0xFF iff the chip never drove the line).  On the
sentinel the driver is marked off and OSError raised; otherwise the
received payload lands in the caller's buffer. -/
def read_rx_payload (st : Driver) (scratch : Int) (rxData : List Int) :
    Driver × Except PyErr (List Int) :=
  if scratch = 0xFF then ({ st with is_on := false }, .error .osError)
  else (st, .ok rxData)

/-- tx_write_payload_ack: W_TX_PAYLOAD transaction with the same
post-transaction sentinel check on the scratch byte. -/
def tx_write_payload_ack (st : Driver) (scratch : Int) : Driver × Except PyErr Unit :=
  if scratch = 0xFF then ({ st with is_on := false }, .error .osError)
  else (st, .ok ())

/-- tx_write_payload_no_ack: W_TX_PAYLOAD_NO_ACK transaction with the
same sentinel check. -/
def tx_write_payload_no_ack (st : Driver) (scratch : Int) : Driver × Except PyErr Unit :=
  if scratch = 0xFF then ({ st with is_on := false }, .error .osError)
  else (st, .ok ())

/-- rx_write_ack_payload: W_ACK_PAYLOAD transaction with the same
sentinel check. -/
def rx_write_ack_payload (st : Driver) (scratch : Int) (pipe_no : Nat) :
    Driver × Except PyErr Unit :=
  if scratch = 0xFF then ({ st with is_on := false }, .error .osError)
  else (st, .ok ())

/-- Environment for one master_exchange run: the hardware sets and
clears STATUS flags asynchronously, so status k is the byte returned by
the k-th status-register read issued by the loop; txScratch and
rxScratch are the scratch bytes left by the payload write and payload
read transactions; rxPayload is the queued received payload. -/
structure MEEnv where
  status : Nat → Int
  txScratch : Int
  rxScratch : Int
  rxPayload : List Int

/-- Observable outcome of a master_exchange run: the returned result
code, whether clear_status_flags ran on the exit path, whether the TX
FIFO was flushed, and the caller's input buffer content afterwards. -/
structure MEOutcome where
  res : Nat
  statusCleared : Bool
  txFlushed : Bool
  inBuf : List Int
deriving DecidableEq

/-- The polling loop of master_exchange.  Iteration i starts at status
read index 2 * i: every previous iteration observed neither MAX_RT (bit
4, read 2 * j) nor TX_DS (bit 5, read 2 * j + 1) and consumed exactly
two reads.  On MAX_RT the loop exits to clear-status / flush-TX /
SEND_FAIL; on TX_DS it checks RX_DR (bit 6, one further read) and
either reads the payload into the buffer, clears status and returns
MSG_RECV, or clears status and returns MSG_SENT_NO_RESP. -/
def master_exchange_loop (env : MEEnv) (inBuf : List Int) : Nat → Nat →
    Option (Except PyErr MEOutcome)
  | _, 0 => none
  | i, fuel + 1 =>
    if pyAnd (env.status (2 * i)) 0x10 != 0 then
      some (.ok ⟨SEND_FAIL, true, true, inBuf⟩)
    else if pyAnd (env.status (2 * i + 1)) 0x20 != 0 then
      if pyAnd (env.status (2 * i + 2)) 0x40 != 0 then
        if env.rxScratch = 0xFF then some (.error .osError)
        else some (.ok ⟨MSG_RECV, true, false, env.rxPayload⟩)
      else some (.ok ⟨MSG_SENT_NO_RESP, true, false, inBuf⟩)
    else master_exchange_loop env inBuf (i + 1) fuel

/-- master_exchange: powered-off drivers return SEND_FAIL untouched;
otherwise the outgoing payload is written (OSError on the scratch
sentinel; the ack and no-ack variants perform the identical check) and
the polling loop runs. -/
def master_exchange (env : MEEnv) (is_on : Bool) (inBuf : List Int) (fuel : Nat) :
    Option (Except PyErr MEOutcome) :=
  if !is_on then some (.ok ⟨SEND_FAIL, false, false, inBuf⟩)
  else if env.txScratch = 0xFF then some (.error .osError)
  else master_exchange_loop env inBuf 0 fuel

/-- Environment for one master_send run: status k is the byte returned
by the k-th STATUS read (tx_fifo_full_flag and get_clear_max_rt_irq
both read STATUS), fifo k the byte returned by the k-th FIFO_STATUS
read (tx_fifo_empty), clock k the value of the k-th utime.ticks_ms()
call, and txScratch the scratch byte of the final payload write. -/
structure MSEnv where
  status : Nat → Int
  fifo : Nat → Int
  clock : Nat → Int
  txScratch : Int

/-- Tail of master_send: write the payload (both variants check the
scratch sentinel identically) and return MSG_PENDING. -/
def master_send_finish (env : MSEnv) : Option (Except PyErr Nat) :=
  some (if env.txScratch = 0xFF then .error .osError else .ok MSG_PENDING)

/-- The drain loop of master_send: while the TX FIFO is not empty
(FIFO_STATUS read fIdx), pulse chip-enable and break out on an observed
MAX_RT (STATUS read sIdx); then write the payload. -/
def master_send_drain (env : MSEnv) : Nat → Nat → Nat → Option (Except PyErr Nat)
  | _, _, 0 => none
  | sIdx, fIdx, fuel + 1 =>
    if pyAnd (env.fifo fIdx) 0x10 != 0 then master_send_finish env
    else if pyAnd (env.status sIdx) 0x10 != 0 then master_send_finish env
    else master_send_drain env (sIdx + 1) (fIdx + 1) fuel

/-- The FIFO-full wait loop of master_send (taken when timeout != 0 and
the TX FIFO was full on entry).  Each iteration re-reads the full flag
(STATUS read sIdx); while full it polls MAX_RT with clearing (read
sIdx + 1), and only under an observed MAX_RT does it pulse chip-enable,
re-read the full flag (read sIdx + 2) and, if still full, test the
retry budget (retries == 0 gives SEND_FAIL), then the timeout (the
clock is read, at index cIdx, only when 0 < timeout; TIMED_OUT once
timeout < now - t0), then decrement a positive budget. -/
def master_send_wait (env : MSEnv) (timeout t0 : Int) : Int → Nat → Nat → Nat →
    Option (Except PyErr Nat)
  | _, _, _, 0 => none
  | retries, sIdx, cIdx, fuel + 1 =>
    if pyAnd (env.status sIdx) 1 != 0 then
      if pyAnd (env.status (sIdx + 1)) 0x10 != 0 then
        if pyAnd (env.status (sIdx + 2)) 1 != 0 then
          if retries = 0 then some (.ok SEND_FAIL)
          else if 0 < timeout then
            if timeout < env.clock cIdx - t0 then some (.ok TIMED_OUT)
            else master_send_wait env timeout t0
              (if 0 < retries then retries - 1 else retries) (sIdx + 3) (cIdx + 1) fuel
          else master_send_wait env timeout t0
            (if 0 < retries then retries - 1 else retries) (sIdx + 3) cIdx fuel
        else master_send_wait env timeout t0 retries (sIdx + 3) cIdx fuel
      else master_send_wait env timeout t0 retries (sIdx + 2) cIdx fuel
    else master_send_drain env (sIdx + 1) 0 (fuel + 1)

/-- master_send: powered-off drivers return SEND_FAIL.  If the TX FIFO
is full (STATUS read 0): with timeout == 0 return SEND_FAIL when MAX_RT
is already set (read 1) else FIFO_FULL; otherwise record t0 (clock read
0) and enter the wait loop.  When the FIFO was not full, or once the
wait loop sees it non-full, the drain loop and the payload write run. -/
def master_send (env : MSEnv) (is_on : Bool) (retries timeout : Int) (fuel : Nat) :
    Option (Except PyErr Nat) :=
  if !is_on then some (.ok SEND_FAIL)
  else if pyAnd (env.status 0) 1 != 0 then
    if timeout = 0 then
      some (.ok (if pyAnd (env.status 1) 0x10 != 0 then SEND_FAIL else FIFO_FULL))
    else master_send_wait env timeout (env.clock 0) retries 1 1 fuel
  else master_send_drain env 1 0 fuel

/-- A chip whose registers all read zero (reset-like state). -/
def chipZero : Chip :=
  { regs := fun _ => 0, bufs := fun _ => [], wcount := 0, txFlushes := 0, rxFlushes := 0 }

/-- A chip whose registers all read the byte b. -/
def chipConst (b : Int) : Chip :=
  { regs := fun _ => b, bufs := fun _ => [], wcount := 0, txFlushes := 0, rxFlushes := 0 }

/-- The default configuration values of the source module, with the
retry delay left as a parameter. -/
def cfgDelay (d : Int) : NRF240LConfig :=
  { TX_PIPE := [0xe1, 0xf0, 0xf0, 0xf0, 0xf0]
    RX_PIPE := [0xe1, 0xf0, 0xf0, 0xf0, 0xf0]
    CHANNEL := 97
    EN_DYNAMIC_PL := false
    DEFAULT_PL_SZ := 16
    NUM_RETRIES := 4
    RETRY_DELAY_US := d
    DATA_RATE := 1
    RF_POWER := 3 }

/-- The default configuration with the TX / RX pipe addresses left as a
parameter. -/
def cfgAddr (a : List Int) : NRF240LConfig :=
  { TX_PIPE := a
    RX_PIPE := a
    CHANNEL := 97
    EN_DYNAMIC_PL := false
    DEFAULT_PL_SZ := 16
    NUM_RETRIES := 4
    RETRY_DELAY_US := 1000
    DATA_RATE := 1
    RF_POWER := 3 }

/-- A master_send environment in which the TX FIFO reads full on every
STATUS read and MAX_RT is never set, while the millisecond clock
advances by 1000 on every reading. -/
def msEnvStuck : MSEnv :=
  { status := fun _ => 1, fifo := fun _ => 0, clock := fun k => 1000 * k, txScratch := 0 }

/-- Discriminator: did an Except-valued configuration step succeed? -/
def exceptOk {α : Type} : Except PyErr α → Bool
  | .ok _ => true
  | .error _ => false

/-- Discriminator: did an Except-valued step fail with AssertionError? -/
def exceptAssertFailed {α : Type} : Except PyErr α → Bool
  | .error .assertionError => true
  | _ => false

/-- Discriminator: did a payload transaction raise the hard OSError? -/
def exceptHardError {α : Type} : Except PyErr α → Bool
  | .error .osError => true
  | _ => false

/-- An iteration of the master_exchange polling loop is indecisive when
it observes neither MAX_RT nor TX_DS. -/
def me_indecisive (env : MEEnv) (j : Nat) : Prop :=
  pyAnd (env.status (2 * j)) 0x10 = 0 ∧ pyAnd (env.status (2 * j + 1)) 0x20 = 0

/-- The byte the source writes in set_auto_retry_count, for a current
SETUP_RETR byte v and a retry count r: (v and not (v and 0x0f)) or r. -/
def retry_count_written_byte (v r : Nat) : Int :=
  pyOr (pyAnd (v : Int) (pyNot (pyAnd (v : Int) 0x0f))) (r : Int)

/-- The fixed-field-mask reference byte named by the specification:
(v and 0xf0) or r. -/
def retry_count_fixed_mask_byte (v r : Nat) : Int :=
  pyOr (pyAnd (v : Int) 0xf0) (r : Int)

-- Small frame lemmas about the register file, shared by the proofs.

/-- A register write stores the value at its own address. -/
theorem write_register_int_regs_eq (c : Chip) (reg : Nat) (v : Int) :
    (write_register_int c reg v).regs reg = v := by
  simp [write_register_int]

/-- A register write leaves every other register unchanged. -/
theorem write_register_int_regs_ne (c : Chip) (reg : Nat) (v : Int) (r : Nat)
    (h : r ≠ reg) : (write_register_int c reg v).regs r = c.regs r := by
  simp [write_register_int, h]

/-- A register write leaves the buffer registers unchanged. -/
theorem write_register_int_bufs (c : Chip) (reg : Nat) (v : Int) :
    (write_register_int c reg v).bufs = c.bufs := rfl

/-- A buffer write leaves the byte registers unchanged. -/
theorem write_register_buf_regs (c : Chip) (reg : Nat) (v : List Int) :
    (write_register_buf c reg v).regs = c.regs := rfl

/-- A buffer write stores the buffer at its own address. -/
theorem write_register_buf_bufs_eq (c : Chip) (reg : Nat) (v : List Int) :
    (write_register_buf c reg v).bufs reg = v := by
  simp [write_register_buf]

/-- A buffer write leaves every other buffer register unchanged. -/
theorem write_register_buf_bufs_ne (c : Chip) (reg : Nat) (v : List Int) (r : Nat)
    (h : r ≠ reg) : (write_register_buf c reg v).bufs r = c.bufs r := by
  simp [write_register_buf, h]

/-- toggle_register_bit only ever writes its own register. -/
theorem toggle_register_bit_regs_ne (c : Chip) (reg bit_no : Nat) (sh : Bool) (r : Nat)
    (h : r ≠ reg) : (toggle_register_bit c reg bit_no sh).2.regs r = c.regs r := by
  unfold toggle_register_bit
  dsimp only
  split_ifs <;> simp [write_register_int, h]

/-- toggle_register_bit never touches the buffer registers. -/
theorem toggle_register_bit_bufs (c : Chip) (reg bit_no : Nat) (sh : Bool) :
    (toggle_register_bit c reg bit_no sh).2.bufs = c.bufs := by
  unfold toggle_register_bit
  dsimp only
  split_ifs <;> rfl

/-- clear_status_flags only writes STATUS. -/
theorem clear_status_flags_regs_ne (c : Chip) (r : Nat) (h : r ≠ STATUS_REG) :
    (clear_status_flags c).regs r = c.regs r := by
  simp [clear_status_flags, write_register_int, h]

/-- clear_status_flags leaves the buffer registers unchanged. -/
theorem clear_status_flags_bufs (c : Chip) : (clear_status_flags c).bufs = c.bufs := rfl

/-- FIFO flushes do not touch the register file. -/
theorem flush_tx_fifo_regs (c : Chip) : (flush_tx_fifo c).regs = c.regs := rfl

/-- FIFO flushes do not touch the buffer registers. -/
theorem flush_tx_fifo_bufs (c : Chip) : (flush_tx_fifo c).bufs = c.bufs := rfl

/-- RX FIFO flushes do not touch the register file. -/
theorem flush_rx_fifo_regs (c : Chip) : (flush_rx_fifo c).regs = c.regs := rfl

/-- RX FIFO flushes do not touch the buffer registers. -/
theorem flush_rx_fifo_bufs (c : Chip) : (flush_rx_fifo c).bufs = c.bufs := rfl

-- C3: the retry-delay conversion.

/-- The 0..15 window of the truncated conversion corresponds exactly to
-250 < delay_us < 4000. -/
theorem retry_delay_steps_in_range_iff (d : Int) :
    (0 ≤ retry_delay_steps d ∧ retry_delay_steps d ≤ 15) ↔ (-250 < d ∧ d < 4000) := by
  unfold retry_delay_steps
  rcases le_or_lt 0 d with hd | hd
  · rw [Int.tdiv_eq_ediv hd (by norm_num)]
    omega
  · have h1 : d.tdiv 250 = -((-d).tdiv 250) := by
      rw [← Int.neg_tdiv, neg_neg]
    rw [h1, Int.tdiv_eq_ediv (by omega) (by norm_num)]
    omega

/-- C3 (counterexample): the source conversion int(4000 / 250) yields
step 16, not 15, so the claimed in-range value 4000 us fails the 0..15
assertion of set_auto_retry_delay inside the configuration sequence,
while 300 us (not a multiple of 250) and 0 us (outside [250, 4000]) are
both accepted rather than rejected. -/
theorem retry_delay_conversion_counterexample :
    retry_delay_steps 4000 = 16 ∧
    exceptAssertFailed (shockburst_config (cfgDelay 4000) chipZero) = true ∧
    exceptOk (shockburst_config (cfgDelay 300) chipZero) = true ∧
    exceptOk (shockburst_config (cfgDelay 0) chipZero) = true := by
  refine ⟨by decide, by decide, by decide, by decide⟩

/-- C3 (amended): the Configuration Sequencer converts the retry delay
as int(delay_us / 250) (truncation toward zero) and the assertion
accepts the result exactly when it lands in 0..15, that is exactly when
-250 < delay_us < 4000: 250 us maps to step 1 and 1000 us to step 4,
but 4000 us maps to step 16 and is rejected, while values that are not
multiples of 250 or lie below 250 are accepted whenever the truncated
quotient lands in 0..15. -/
theorem retry_delay_conversion_amended :
    retry_delay_steps 250 = 1 ∧ retry_delay_steps 1000 = 4 ∧ retry_delay_steps 4000 = 16 ∧
    retry_delay_steps 300 = 1 ∧ retry_delay_steps 0 = 0 ∧
    (∀ (d : Int) (c : Chip),
      exceptOk (set_auto_retry_delay c (retry_delay_steps d)) = true ↔
        (-250 < d ∧ d < 4000)) := by
  refine ⟨by decide, by decide, by decide, by decide, by decide, ?_⟩
  intro d c
  unfold set_auto_retry_delay
  split_ifs with h
  · simpa [exceptOk] using (retry_delay_steps_in_range_iff d).mp h
  · simp only [exceptOk]
    constructor
    · intro hfalse
      exact absurd hfalse (by simp)
    · intro hrange
      exact absurd ((retry_delay_steps_in_range_iff d).mpr hrange) h

-- Bit facts about byte-valued registers, proved by exhaustive kernel
-- evaluation over all byte values and bit positions.

set_option maxRecDepth 40000 in
/-- Setting a bit with pyOr makes that bit read as set, for every byte
and bit position of an 8-bit register. -/
theorem pyAnd_after_set : ∀ b : Nat, b < 256 → ∀ k : Nat, k < 8 →
    pyAnd (pyOr (b : Int) (pyShl1 k)) (pyShl1 k) ≠ 0 := by decide

set_option maxRecDepth 40000 in
/-- Clearing a bit with pyAnd-pyNot makes that bit read as clear, for
every byte and bit position of an 8-bit register. -/
theorem pyAnd_after_clear : ∀ b : Nat, b < 256 → ∀ k : Nat, k < 8 →
    pyAnd (pyAnd (b : Int) (pyNot (pyShl1 k))) (pyShl1 k) = 0 := by decide

-- C5: toggle_register_bit write behaviour.

/-- C5 (counterexample): on a chip whose CONFIG register already has bit
1 set, two consecutive toggle_register_bit calls requesting that bit
high issue zero underlying register writes, not exactly one. -/
theorem toggle_bit_zero_writes_counterexample :
    (toggle_register_bit (toggle_register_bit (chipConst 2) CONFIG_REG 1 true).2
      CONFIG_REG 1 true).2.wcount = 0 ∧
    (toggle_register_bit (chipConst 2) CONFIG_REG 1 true).1 = true := by
  exact ⟨by decide, by decide⟩

/-- C5 (amended): for every byte-valued register and bit position 0-7,
toggle_register_bit returns the prior bit state unconditionally and
issues no write when the bit already has the requested state, so two
calls with the same target state issue exactly one underlying write
when the bit initially differs from the target and zero writes when it
already matches; the second call returns the requested state either
way. -/
theorem toggle_bit_write_count_amended (c : Chip) (reg bit_no : Nat) (sh : Bool)
    (b : Nat) (hbit : bit_no < 8) (hb : b < 256) (hc : c.regs reg = (b : Int)) :
    ((toggle_register_bit c reg bit_no sh).1 = (pyAnd (b : Int) (pyShl1 bit_no) != 0)) ∧
    ((toggle_register_bit c reg bit_no sh).2.wcount =
      c.wcount + (if (toggle_register_bit c reg bit_no sh).1 = sh then 0 else 1)) ∧
    ((toggle_register_bit (toggle_register_bit c reg bit_no sh).2 reg bit_no sh).1 = sh) ∧
    ((toggle_register_bit (toggle_register_bit c reg bit_no sh).2 reg bit_no sh).2.wcount =
      (toggle_register_bit c reg bit_no sh).2.wcount) := by
  have hset := pyAnd_after_set b hb bit_no hbit
  have hclear := pyAnd_after_clear b hb bit_no hbit
  cases sh <;>
    rcases hB : pyAnd (b : Int) (pyShl1 bit_no) != 0 <;>
      simp_all [toggle_register_bit, read_register, write_register_int, bne_iff_ne]

-- C6: check_msg_sent decision table.

/-- C6: check_master_msg_sent returns SEND_FAIL when MAX_RT is set,
else MSG_SENT when TX_DS is set, else MSG_PENDING when the TX FIFO is
non-empty, else SEND_FAIL; check_slave_msg_sent returns MSG_SENT when
TX_DS is set or the TX FIFO is already empty, else MSG_PENDING; and
check_msg_sent dispatches on the role. -/
theorem check_msg_sent_flag_table (c : Chip) (is_master : Bool) :
    ((check_master_msg_sent c).1 =
      (if pyAnd (c.regs STATUS_REG) 0x10 != 0 then SEND_FAIL
       else if pyAnd (c.regs STATUS_REG) 0x20 != 0 then MSG_SENT
       else if !(pyAnd (c.regs FIFO_STATUS_REG) 0x10 != 0) then MSG_PENDING
       else SEND_FAIL)) ∧
    ((check_slave_msg_sent c).1 =
      (if (pyAnd (c.regs STATUS_REG) 0x20 != 0) ||
          (pyAnd (c.regs FIFO_STATUS_REG) 0x10 != 0) then MSG_SENT
       else MSG_PENDING)) ∧
    (check_msg_sent is_master c =
      (if is_master then check_master_msg_sent c else check_slave_msg_sent c)) := by
  refine ⟨?_, ?_, rfl⟩
  · unfold check_master_msg_sent get_clear_max_rt_irq get_clear_tx_irq tx_fifo_empty
    rcases h1 : pyAnd (c.regs STATUS_REG) 0x10 != 0 <;>
      rcases h2 : pyAnd (c.regs STATUS_REG) 0x20 != 0 <;>
        rcases h3 : pyAnd (c.regs FIFO_STATUS_REG) 0x10 != 0 <;>
          simp_all [read_status_register, read_register, write_register_int]
  · unfold check_slave_msg_sent get_clear_tx_irq tx_fifo_empty
    rcases h2 : pyAnd (c.regs STATUS_REG) 0x20 != 0 <;>
      rcases h3 : pyAnd (c.regs FIFO_STATUS_REG) 0x10 != 0 <;>
        simp_all [read_status_register, read_register, write_register_int]

-- C7: the bus-idle sentinel on payload transactions.

/-- C7: every payload read or write transaction whose scratch byte still
holds the 0xFF bus-idle sentinel after the transaction marks the driver
powered off and raises the hard OSError (an exception, not one of the
seven result codes); with any other scratch byte no error is raised and
the power flag is unchanged. -/
theorem payload_sentinel_hard_failure (st : Driver) (scratch : Int)
    (rxData : List Int) (pipe_no : Nat) :
    (exceptHardError (read_rx_payload st scratch rxData).2 = (scratch == 0xFF)) ∧
    ((read_rx_payload st scratch rxData).1.is_on = ((scratch != 0xFF) && st.is_on)) ∧
    ((read_rx_payload st scratch rxData).2 =
      (if scratch = 0xFF then .error .osError else .ok rxData)) ∧
    (exceptHardError (tx_write_payload_ack st scratch).2 = (scratch == 0xFF)) ∧
    ((tx_write_payload_ack st scratch).1.is_on = ((scratch != 0xFF) && st.is_on)) ∧
    (exceptHardError (tx_write_payload_no_ack st scratch).2 = (scratch == 0xFF)) ∧
    ((tx_write_payload_no_ack st scratch).1.is_on = ((scratch != 0xFF) && st.is_on)) ∧
    (exceptHardError (rx_write_ack_payload st scratch pipe_no).2 = (scratch == 0xFF)) ∧
    ((rx_write_ack_payload st scratch pipe_no).1.is_on = ((scratch != 0xFF) && st.is_on)) := by
  by_cases h : scratch = 0xFF <;>
    simp [read_rx_payload, tx_write_payload_ack, tx_write_payload_no_ack,
      rx_write_ack_payload, exceptHardError, h]

-- C8: the retry-count masking expression.

set_option maxRecDepth 40000 in
/-- The source expression and the fixed-mask reference coincide on every
register byte and every retry count. -/
theorem retry_count_mask_agrees : ∀ v : Nat, v < 256 → ∀ r : Nat, r < 16 →
    retry_count_written_byte v r = retry_count_fixed_mask_byte v r := by decide

/-- C8 (counterexample): no SETUP_RETR byte v and retry count r in 0..15
make the source's written byte (v and not (v and 0x0f)) or r differ
from the fixed-mask reference (v and 0xf0) or r - the claimed
divergence pair does not exist. -/
theorem retry_count_mask_counterexample :
    ¬ ∃ v r : Nat, v ≤ 255 ∧ r ≤ 15 ∧
      retry_count_written_byte v r ≠ retry_count_fixed_mask_byte v r := by
  rintro ⟨v, r, hv, hr, hne⟩
  exact hne (retry_count_mask_agrees v (by omega) r (by omega))

/-- C8 (amended): masking against the current lower nibble is
extensionally identical to masking against the fixed 0x0f field mask:
for every byte v in SETUP_RETR and retry count r in 0..15,
set_auto_retry_count writes exactly (v and 0xf0) or r, so no stale bits
survive. -/
theorem set_auto_retry_count_fixed_mask_amended (v r : Nat) (hv : v ≤ 255)
    (hr : r ≤ 15) (c : Chip) (hc : c.regs SETUP_RETR_REG = (v : Int)) :
    set_auto_retry_count c (r : Int) =
      .ok (write_register_int c SETUP_RETR_REG (retry_count_fixed_mask_byte v r)) := by
  unfold set_auto_retry_count
  rw [if_pos ⟨Int.natCast_nonneg r, by exact_mod_cast hr⟩]
  dsimp only
  simp only [read_register, hc]
  have hshr : pyShr (pyAnd (v : Int) 0x0f) 0 = pyAnd (v : Int) 0x0f := by
    have h1 : ((2 ^ 0 : Nat) : Int) = 1 := by norm_num
    simp only [pyShr, h1]
    exact Int.ediv_one _
  rw [hshr]
  have hagree := retry_count_mask_agrees v (by omega) r (by omega)
  unfold retry_count_written_byte at hagree
  rw [hagree]

/-- C8 (witness for the amended theorem): a concrete instantiation at
SETUP_RETR byte 0xa7 and retry count 5. -/
theorem set_auto_retry_count_fixed_mask_amended_witness :
    set_auto_retry_count (chipConst 0xa7) (5 : Int) =
      .ok (write_register_int (chipConst 0xa7) SETUP_RETR_REG
        (retry_count_fixed_mask_byte 0xa7 5)) :=
  set_auto_retry_count_fixed_mask_amended 0xa7 5 (by decide) (by decide)
    (chipConst 0xa7) rfl

/-- C5 (witness for the amended theorem): a concrete instantiation on a
chip whose CONFIG byte is 1 (bit 1 clear), requesting bit 1 high. -/
theorem toggle_bit_write_count_amended_witness :
    ((toggle_register_bit (chipConst 1) CONFIG_REG 1 true).1 =
      (pyAnd ((1 : Nat) : Int) (pyShl1 1) != 0)) ∧
    ((toggle_register_bit (chipConst 1) CONFIG_REG 1 true).2.wcount =
      (chipConst 1).wcount +
        (if (toggle_register_bit (chipConst 1) CONFIG_REG 1 true).1 = true then 0 else 1)) ∧
    ((toggle_register_bit (toggle_register_bit (chipConst 1) CONFIG_REG 1 true).2
      CONFIG_REG 1 true).1 = true) ∧
    ((toggle_register_bit (toggle_register_bit (chipConst 1) CONFIG_REG 1 true).2
      CONFIG_REG 1 true).2.wcount =
      (toggle_register_bit (chipConst 1) CONFIG_REG 1 true).2.wcount) :=
  toggle_bit_write_count_amended (chipConst 1) CONFIG_REG 1 true 1
    (by decide) (by decide) rfl

-- C9: check_device_responsive and the power-up bit.

set_option maxRecDepth 40000 in
/-- Clearing then setting bit 1 of a byte leaves the bit set. -/
theorem pyAnd_clear_then_set : ∀ b : Nat, b < 256 →
    pyAnd (pyOr (pyAnd (b : Int) (pyNot (pyShl1 1))) (pyShl1 1)) (pyShl1 1) ≠ 0 := by
  decide

/-- C9 (counterexample): starting from a chip whose CONFIG register
reads 0, check_device_responsive leaves the power-up bit set, so the
bit does not equal its value before the call. -/
theorem check_device_responsive_counterexample :
    pyAnd ((check_device_responsive chipZero).2.regs CONFIG_REG) (pyShl1 1) ≠
      pyAnd (chipZero.regs CONFIG_REG) (pyShl1 1) := by decide

/-- C9 (amended): check_device_responsive is not reversible - the
commented-out restore means the power-up bit is left set after every
call on a byte-valued CONFIG register, so it equals its prior value
only when it was already set; no register other than CONFIG and no
buffer register is modified, and the returned boolean equals the
initial power-up bit state. -/
theorem check_device_responsive_powerup_amended (c : Chip) (b : Nat) (hb : b < 256)
    (hc : c.regs CONFIG_REG = (b : Int)) :
    (pyAnd ((check_device_responsive c).2.regs CONFIG_REG) (pyShl1 1) ≠ 0) ∧
    (∀ r : Nat, r ≠ CONFIG_REG → (check_device_responsive c).2.regs r = c.regs r) ∧
    ((check_device_responsive c).2.bufs = c.bufs) ∧
    ((check_device_responsive c).1 = (pyAnd ((b : Nat) : Int) (pyShl1 1) != 0)) := by
  have hset := pyAnd_after_set b hb 1 (by omega)
  have hclear := pyAnd_after_clear b hb 1 (by omega)
  have hcs := pyAnd_clear_then_set b hb
  unfold check_device_responsive toggle_power_up toggle_register_bit
  rcases hB : pyAnd ((b : Nat) : Int) (pyShl1 1) != 0 <;>
    simp_all [read_register, write_register_int, bne_iff_ne]

/-- C9 (witness for the amended theorem): a concrete instantiation on
the all-zero chip. -/
theorem check_device_responsive_powerup_amended_witness :
    (pyAnd ((check_device_responsive chipZero).2.regs CONFIG_REG) (pyShl1 1) ≠ 0) ∧
    (∀ r : Nat, r ≠ CONFIG_REG →
      (check_device_responsive chipZero).2.regs r = chipZero.regs r) ∧
    ((check_device_responsive chipZero).2.bufs = chipZero.bufs) ∧
    ((check_device_responsive chipZero).1 = (pyAnd ((0 : Nat) : Int) (pyShl1 1) != 0)) :=
  check_device_responsive_powerup_amended chipZero 0 (by decide) rfl

-- C10: power_on return values.

/-- C10: power_on on an already-on driver returns None (so the no-op
success path is falsy, like the failure value False, and unlike True);
on an off driver it returns exactly the probe verdict - True only after
a fresh successful power-up (marking the driver on), False only when
the responsiveness probe fails (leaving the driver marked off). -/
theorem power_on_return_values (st : Driver) :
    ((power_on st).1 =
      (if st.is_on then none else some (check_device_responsive st.chip).1)) ∧
    ((power_on st).2.is_on = (st.is_on || (check_device_responsive st.chip).1)) := by
  unfold power_on
  rcases h : st.is_on <;> rcases hp : (check_device_responsive st.chip).1 <;> simp_all

-- C1: master_exchange outcome by observed flags.

/-- One-step unfolding equation of the master_exchange polling loop. -/
theorem master_exchange_loop_succ (env : MEEnv) (inBuf : List Int) (i n : Nat) :
    master_exchange_loop env inBuf i (n + 1) =
      (if pyAnd (env.status (2 * i)) 0x10 != 0 then
        some (.ok ⟨SEND_FAIL, true, true, inBuf⟩)
      else if pyAnd (env.status (2 * i + 1)) 0x20 != 0 then
        if pyAnd (env.status (2 * i + 2)) 0x40 != 0 then
          if env.rxScratch = 0xFF then some (.error .osError)
          else some (.ok ⟨MSG_RECV, true, false, env.rxPayload⟩)
        else some (.ok ⟨MSG_SENT_NO_RESP, true, false, inBuf⟩)
      else master_exchange_loop env inBuf (i + 1) n) := rfl

/-- Indecisive iterations are skipped: if every iteration before i + d
observes neither MAX_RT nor TX_DS, the loop from iteration i reaches
iteration i + d with its fuel reduced accordingly. -/
theorem master_exchange_loop_skip (env : MEEnv) (inBuf : List Int) :
    ∀ (d i fuel : Nat), (∀ j, i ≤ j → j < i + d → me_indecisive env j) →
      master_exchange_loop env inBuf i (d + fuel) =
        master_exchange_loop env inBuf (i + d) fuel := by
  intro d
  induction d with
  | zero => intro i fuel _; simp
  | succ d ih =>
    intro i fuel h
    have hi : me_indecisive env i := h i le_rfl (by omega)
    have hstep : master_exchange_loop env inBuf i (d + 1 + fuel) =
        master_exchange_loop env inBuf (i + 1) (d + fuel) := by
      have harith : d + 1 + fuel = (d + fuel) + 1 := by omega
      rw [harith, master_exchange_loop_succ]
      simp [hi.1, hi.2]
    rw [hstep]
    rw [ih (i + 1) fuel (fun j hj1 hj2 => h j (by omega) (by omega))]
    have harith2 : i + 1 + d = i + (d + 1) := by omega
    rw [harith2]

/-- C1: on a powered-on driver with a responsive bus, master_exchange
is decided by the observed status flags.  If the first i iterations are
indecisive, then at iteration i: an observed MAX_RT gives SEND_FAIL
with status cleared and the TX FIFO flushed; an observed TX_DS without
RX_DR gives MSG_SENT_NO_RESP with status cleared; an observed TX_DS
with RX_DR reads the received payload into the input buffer, clears
status and gives MSG_RECV. -/
theorem master_exchange_outcome_by_flags (env : MEEnv) (inBuf : List Int)
    (i fuel : Nat) (hind : ∀ j, j < i → me_indecisive env j) (hif : i < fuel)
    (htx : env.txScratch ≠ 0xFF) :
    (pyAnd (env.status (2 * i)) 0x10 ≠ 0 →
      master_exchange env true inBuf fuel =
        some (.ok ⟨SEND_FAIL, true, true, inBuf⟩)) ∧
    (pyAnd (env.status (2 * i)) 0x10 = 0 → pyAnd (env.status (2 * i + 1)) 0x20 ≠ 0 →
      pyAnd (env.status (2 * i + 2)) 0x40 = 0 →
      master_exchange env true inBuf fuel =
        some (.ok ⟨MSG_SENT_NO_RESP, true, false, inBuf⟩)) ∧
    (pyAnd (env.status (2 * i)) 0x10 = 0 → pyAnd (env.status (2 * i + 1)) 0x20 ≠ 0 →
      pyAnd (env.status (2 * i + 2)) 0x40 ≠ 0 → env.rxScratch ≠ 0xFF →
      master_exchange env true inBuf fuel =
        some (.ok ⟨MSG_RECV, true, false, env.rxPayload⟩)) := by
  have hme : master_exchange env true inBuf fuel =
      master_exchange_loop env inBuf i (fuel - i) := by
    unfold master_exchange
    rw [if_neg (by simp), if_neg htx]
    have h1 : fuel = i + (fuel - i) := by omega
    conv_lhs => rw [h1]
    have h2 := master_exchange_loop_skip env inBuf i 0 (fuel - i)
      (fun j hj1 hj2 => hind j (by omega))
    simpa using h2
  have h2 : fuel - i = (fuel - i - 1) + 1 := by omega
  rw [hme, h2]
  refine ⟨?_, ?_, ?_⟩
  · intro hmx
    rw [master_exchange_loop_succ]
    simp [hmx]
  · intro hmx htxds hrx
    rw [master_exchange_loop_succ]
    simp [hmx, htxds, hrx]
  · intro hmx htxds hrx hscr
    rw [master_exchange_loop_succ]
    simp [hmx, htxds, hrx, hscr]

/-- C1 (witness): concrete flag environments exercising all three
scenarios of the outcome theorem. -/
theorem master_exchange_outcome_by_flags_witness :
    (master_exchange ⟨fun _ => 0x10, 0, 0, []⟩ true [] 1 =
      some (.ok ⟨SEND_FAIL, true, true, []⟩)) ∧
    (master_exchange ⟨fun k => if k = 1 then 0x20 else 0, 0, 0, []⟩ true [] 1 =
      some (.ok ⟨MSG_SENT_NO_RESP, true, false, []⟩)) ∧
    (master_exchange ⟨fun k => if k = 1 then 0x20 else if k = 2 then 0x40 else 0,
        0, 7, [3, 4]⟩ true [] 1 =
      some (.ok ⟨MSG_RECV, true, false, [3, 4]⟩)) := by
  refine ⟨?_, ?_, ?_⟩
  · exact (master_exchange_outcome_by_flags ⟨fun _ => 0x10, 0, 0, []⟩ [] 0 1
      (fun j hj => absurd hj (Nat.not_lt_zero j)) (by omega) (by decide)).1 (by decide)
  · exact (master_exchange_outcome_by_flags ⟨fun k => if k = 1 then 0x20 else 0, 0, 0, []⟩
      [] 0 1 (fun j hj => absurd hj (Nat.not_lt_zero j)) (by omega) (by decide)).2.1
      (by decide) (by decide) (by decide)
  · exact (master_exchange_outcome_by_flags
      ⟨fun k => if k = 1 then 0x20 else if k = 2 then 0x40 else 0, 0, 7, [3, 4]⟩
      [] 0 1 (fun j hj => absurd hj (Nat.not_lt_zero j)) (by omega) (by decide)).2.2
      (by decide) (by decide) (by decide) (by decide)

-- C2: master_send timeout behaviour.

/-- In the always-full, never-MAX_RT environment the wait loop of
master_send never returns, whatever its fuel, retry budget or read
positions: the timeout test is only reachable under an observed MAX_RT
event. -/
theorem master_send_wait_stuck : ∀ (fuel sIdx cIdx : Nat) (retries : Int),
    master_send_wait msEnvStuck 50 0 retries sIdx cIdx fuel = none := by
  intro fuel
  induction fuel with
  | zero => intro sIdx cIdx retries; rfl
  | succ n ih =>
    intro sIdx cIdx retries
    unfold master_send_wait
    have hs : ∀ k, msEnvStuck.status k = 1 := fun _ => rfl
    have h11 : pyAnd 1 1 = 1 := by decide
    have h116 : pyAnd 1 0x10 = 0 := by decide
    simp only [hs, h11, h116]
    simp only [bne_self_eq_false, Bool.false_eq_true, if_false, bne_iff_ne, ne_eq,
      one_ne_zero, not_false_eq_true, if_true]
    exact ih (sIdx + 2) cIdx retries

/-- C2 (counterexample): with the TX FIFO full on every read, MAX_RT
never observed, timeout_ms = 50 and a clock that advances 1000 ms per
reading, master_send never returns at all - in particular it never
returns TIMED_OUT, however much monotonic time elapses. -/
theorem master_send_timeout_counterexample :
    ¬ ∃ (fuel : Nat) (r : Except PyErr Nat),
      master_send msEnvStuck true (-1) 50 fuel = some r := by
  rintro ⟨fuel, r, h⟩
  unfold master_send at h
  have hs : ∀ k, msEnvStuck.status k = 1 := fun _ => rfl
  have h11 : pyAnd 1 1 = 1 := by decide
  have hclock : msEnvStuck.clock 0 = 0 := by decide
  simp only [hs, h11, hclock, Bool.not_true, Bool.false_eq_true, if_false] at h
  rw [if_pos (show ((1 : Int) != 0) = true by decide)] at h
  rw [if_neg (show ¬((50 : Int) = 0) by norm_num)] at h
  rw [master_send_wait_stuck fuel 1 1 (-1)] at h
  exact Option.noConfusion h

/-- C2 (amended): TIMED_OUT is reachable only through the
Max-retries-exceeded branch: when the FIFO reads full, a MAX_RT event
is observed, the FIFO is still full after the chip-enable pulse, the
retry budget is not exhausted and the elapsed monotonic time exceeds
the positive timeout, master_send returns TIMED_OUT; but when no MAX_RT
flag is ever observed while the FIFO stays full, the wait loop never
terminates, so no TIMED_OUT (nor any other result) is ever returned. -/
theorem master_send_timeout_requires_max_retry :
    (∀ (env : MSEnv) (retries timeout : Int) (fuel : Nat),
      pyAnd (env.status 0) 1 ≠ 0 → pyAnd (env.status 1) 1 ≠ 0 →
      pyAnd (env.status 2) 0x10 ≠ 0 → pyAnd (env.status 3) 1 ≠ 0 →
      retries ≠ 0 → 0 < timeout → timeout < env.clock 1 - env.clock 0 →
      master_send env true retries timeout (fuel + 1) = some (.ok TIMED_OUT)) ∧
    (∀ fuel : Nat, master_send msEnvStuck true (-1) 50 fuel = none) := by
  constructor
  · intro env retries timeout fuel h0 h1 h2 h3 hr ht hcl
    unfold master_send
    rw [if_neg (by simp)]
    rw [if_pos (by simpa [bne_iff_ne] using h0)]
    rw [if_neg (by omega)]
    unfold master_send_wait
    rw [if_pos (by simpa [bne_iff_ne] using h1)]
    rw [if_pos (by simpa [bne_iff_ne] using h2)]
    rw [if_pos (by simpa [bne_iff_ne] using h3)]
    rw [if_neg hr, if_pos ht, if_pos hcl]
  · intro fuel
    unfold master_send
    have hs : ∀ k, msEnvStuck.status k = 1 := fun _ => rfl
    have h11 : pyAnd 1 1 = 1 := by decide
    have hclock : msEnvStuck.clock 0 = 0 := by decide
    simp only [hs, h11, hclock, Bool.not_true, Bool.false_eq_true, if_false]
    rw [if_pos (show ((1 : Int) != 0) = true by decide)]
    rw [if_neg (show ¬((50 : Int) = 0) by norm_num)]
    exact master_send_wait_stuck fuel 1 1 (-1)

/-- C2 (witness for the amended theorem): a concrete environment whose
STATUS always reads 0x11 (FIFO full and MAX_RT), with the clock jumping
from 0 to 100 between the two readings and timeout 50, reaches
TIMED_OUT; and the stuck environment at fuel 5 returns nothing. -/
theorem master_send_timeout_requires_max_retry_witness :
    (master_send ⟨fun _ => 0x11, fun _ => 0, fun k => 100 * k, 0⟩ true (-1) 50 1 =
      some (.ok TIMED_OUT)) ∧
    (master_send msEnvStuck true (-1) 50 5 = none) :=
  ⟨master_send_timeout_requires_max_retry.1 ⟨fun _ => 0x11, fun _ => 0, fun k => 100 * k, 0⟩
      (-1) 50 0 (by decide) (by decide) (by decide) (by decide) (by decide) (by decide)
      (by decide),
    master_send_timeout_requires_max_retry.2 5⟩

-- C4: configure_tx and the TX address length.

/-- Bind on a successful Except step runs the continuation. -/
theorem except_bind_ok {α β : Type} (a : α) (f : α → Except PyErr β) :
    ((Except.ok a : Except PyErr α) >>= f) = f a := rfl

/-- Bind on a failed Except step short-circuits. -/
theorem except_bind_err {α β : Type} (e : PyErr) (f : α → Except PyErr β) :
    ((Except.error e : Except PyErr α) >>= f) = Except.error e := rfl

/-- Pure in the Except monad is ok. -/
theorem except_pure_eq {α : Type} (a : α) : (pure a : Except PyErr α) = Except.ok a := rfl

/-- set_tx_pipe_address succeeds exactly on 5-byte addresses. -/
theorem set_tx_pipe_address_eq (c : Chip) (a : List Int) (h : a.length = 5) :
    set_tx_pipe_address c a = .ok (write_register_buf c TX_ADDR_REG a) := by
  unfold set_tx_pipe_address
  rw [if_pos h]

/-- set_tx_pipe_address rejects every other address length. -/
theorem set_tx_pipe_address_err (c : Chip) (a : List Int) (h : a.length ≠ 5) :
    set_tx_pipe_address c a = .error .assertionError := by
  unfold set_tx_pipe_address
  rw [if_neg h]

/-- Running the shockburst configuration sequence on a valid
configuration (static payload mode) succeeds, leaves SETUP_AW holding
len(TX_PIPE) - 2, and does not touch the TX address buffer. -/
theorem shockburst_config_spec (cfg : NRF240LConfig) (c : Chip)
    (hp1 : 0 ≤ cfg.RF_POWER) (hp2 : cfg.RF_POWER ≤ 3)
    (hd1 : 0 ≤ cfg.DATA_RATE) (hd2 : cfg.DATA_RATE ≤ 2)
    (hr1 : 0 ≤ retry_delay_steps cfg.RETRY_DELAY_US)
    (hr2 : retry_delay_steps cfg.RETRY_DELAY_US ≤ 15)
    (hn1 : 0 ≤ cfg.NUM_RETRIES) (hn2 : cfg.NUM_RETRIES ≤ 15)
    (hc1 : 0 ≤ cfg.CHANNEL) (hc2 : cfg.CHANNEL ≤ 125)
    (hl1 : 3 ≤ cfg.TX_PIPE.length) (hl2 : cfg.TX_PIPE.length ≤ 5)
    (hdyn : cfg.EN_DYNAMIC_PL = false)
    (hpl1 : 1 ≤ cfg.DEFAULT_PL_SZ) (hpl2 : cfg.DEFAULT_PL_SZ ≤ 32) :
    ∃ c2 : Chip, shockburst_config cfg c = .ok c2 ∧
      c2.regs SETUP_AW_REG = (cfg.TX_PIPE.length : Int) - 2 ∧
      c2.bufs TX_ADDR_REG = c.bufs TX_ADDR_REG := by
  unfold shockburst_config set_rf_power set_data_rate set_auto_retry_delay
    set_auto_retry_count set_channel set_address_width toggle_enable_rx_pipe
    set_rx_pipe_address toggle_auto_ack_for_pipe set_rx_payload_length
  simp only [hp1, hp2, hd1, hd2, hr1, hr2, hn1, hn2, hc1, hc2, hl1, hl2, hdyn,
    hpl1, hpl2, and_self, and_true, true_and, if_true, Nat.zero_le,
    except_bind_ok, except_pure_eq, Nat.add_zero]
  norm_num only [except_bind_ok, except_pure_eq]
  refine ⟨_, rfl, ?_, ?_⟩
  · simp [en_crc, set_crc_scheme, enable_payloads_with_ack,
      toggle_register_bit_regs_ne, write_register_int_regs_eq, write_register_int_regs_ne,
      write_register_buf_regs, SETUP_AW_REG, RX_PW_P0_REG, FEATURE_REG, EN_AA_REG,
      RX_ADDR_REG, EN_RXADDR_REG]
  · simp [en_crc, set_crc_scheme, enable_payloads_with_ack, clear_status_flags_bufs,
      flush_tx_fifo_bufs, flush_rx_fifo_bufs, toggle_register_bit_bufs,
      write_register_int_bufs, write_register_buf_bufs_ne, TX_ADDR_REG, RX_ADDR_REG]

/-- C4 (amended): on a powered-on driver with an otherwise valid
configuration, configure_tx completes without any assertion failure
only when the TX pipe address has length 5 - it then programs the
address width register with length - 2 and the TX address buffer with
the address; for lengths 3 and 4 the address width step itself succeeds
but the set_tx_pipe_address assertion len(address) == 5 fails, so
configure_tx raises AssertionError. -/
theorem configure_tx_address_width_amended (cfg : NRF240LConfig) (st : Driver)
    (hon : st.is_on = true)
    (hp1 : 0 ≤ cfg.RF_POWER) (hp2 : cfg.RF_POWER ≤ 3)
    (hd1 : 0 ≤ cfg.DATA_RATE) (hd2 : cfg.DATA_RATE ≤ 2)
    (hr1 : 0 ≤ retry_delay_steps cfg.RETRY_DELAY_US)
    (hr2 : retry_delay_steps cfg.RETRY_DELAY_US ≤ 15)
    (hn1 : 0 ≤ cfg.NUM_RETRIES) (hn2 : cfg.NUM_RETRIES ≤ 15)
    (hc1 : 0 ≤ cfg.CHANNEL) (hc2 : cfg.CHANNEL ≤ 125)
    (hdyn : cfg.EN_DYNAMIC_PL = false)
    (hpl1 : 1 ≤ cfg.DEFAULT_PL_SZ) (hpl2 : cfg.DEFAULT_PL_SZ ≤ 32) :
    (cfg.TX_PIPE.length = 5 →
      ∃ d : Driver, configure_tx cfg st = .ok (none, d) ∧ d.is_on = st.is_on ∧
        d.chip.regs SETUP_AW_REG = (cfg.TX_PIPE.length : Int) - 2 ∧
        d.chip.bufs TX_ADDR_REG = cfg.TX_PIPE) ∧
    ((cfg.TX_PIPE.length = 3 ∨ cfg.TX_PIPE.length = 4) →
      configure_tx cfg st = .error .assertionError) := by
  constructor
  · intro hlen
    obtain ⟨c2, hsb, hAW, hbufs⟩ := shockburst_config_spec cfg
      (toggle_power_up st.chip false).2 hp1 hp2 hd1 hd2 hr1 hr2 hn1 hn2 hc1 hc2
      (by omega) (by omega) hdyn hpl1 hpl2
    unfold configure_tx
    rw [hon]
    simp only [Bool.not_true, Bool.false_eq_true, if_false]
    rw [hsb, except_bind_ok,
      set_tx_pipe_address_eq _ _ hlen, except_bind_ok, except_pure_eq]
    refine ⟨_, rfl, rfl, ?_, ?_⟩
    · rw [hlen] at hAW
      simp [toggle_power_up, toggle_primary_rx, toggle_register_bit_regs_ne,
        write_register_buf_regs, SETUP_AW_REG, CONFIG_REG, hlen]
      simp only [SETUP_AW_REG] at hAW
      omega
    · simp [toggle_power_up, toggle_primary_rx, toggle_register_bit_bufs,
        write_register_buf_bufs_eq]
  · intro hlen34
    obtain ⟨c2, hsb, hAW, hbufs⟩ := shockburst_config_spec cfg
      (toggle_power_up st.chip false).2 hp1 hp2 hd1 hd2 hr1 hr2 hn1 hn2 hc1 hc2
      (by omega) (by omega) hdyn hpl1 hpl2
    unfold configure_tx
    rw [hon]
    simp only [Bool.not_true, Bool.false_eq_true, if_false]
    rw [hsb, except_bind_ok,
      set_tx_pipe_address_err _ _ (by omega), except_bind_err]

/-- C4 (counterexample): with otherwise default-valid settings, a
3-byte (or 4-byte) TX pipe address makes configure_tx raise
AssertionError instead of configuring the transmitter. -/
theorem configure_tx_short_address_counterexample :
    exceptAssertFailed (configure_tx (cfgAddr [1, 2, 3]) ⟨chipZero, true, 0⟩) = true ∧
    exceptAssertFailed (configure_tx (cfgAddr [1, 2, 3, 4]) ⟨chipZero, true, 0⟩) = true := by
  exact ⟨by decide, by decide⟩

/-- C4 (witness for the amended theorem): the default 5-byte address
configures a powered-on driver without error. -/
theorem configure_tx_address_width_amended_witness :
    ∃ d : Driver,
      configure_tx (cfgAddr [225, 240, 240, 240, 240]) ⟨chipZero, true, 0⟩ =
        .ok (none, d) ∧
      d.is_on = (⟨chipZero, true, 0⟩ : Driver).is_on ∧
      d.chip.regs SETUP_AW_REG =
        ((cfgAddr [225, 240, 240, 240, 240]).TX_PIPE.length : Int) - 2 ∧
      d.chip.bufs TX_ADDR_REG = (cfgAddr [225, 240, 240, 240, 240]).TX_PIPE :=
  (configure_tx_address_width_amended (cfgAddr [225, 240, 240, 240, 240])
    ⟨chipZero, true, 0⟩ rfl (by decide) (by decide) (by decide) (by decide) (by decide)
    (by decide) (by decide) (by decide) (by decide) (by decide) (by decide) (by decide)
    (by decide)).1 (by decide)

end NRF
